import Mathlib

/-!
Verification of the dashboard core of Demonst-Valores-V2: the data shaper
(year filtering, header extraction, year-list derivation), the Excel-like
selection engine (cell / column / row selection with ctrl, meta and shift
modifiers), the fetch lifecycle of the dashboard page, and the pt-BR
currency rendering of cell values.  Definitions are shallow embeddings of
`frontend/app/dashboard/page.tsx` and `frontend/lib/api.ts`.
-/

namespace DemonstValores

/-- One raw record, as fetched for a tab: the `ano` field (absent or `null`
modelled as `none`, the number `0` kept as `some 0` since JavaScript treats
it as falsy), and the insertion order of the object's own keys, which is
what `Object.keys` returns (it includes `ano` and `percentuais` when those
properties are present). -/
structure SheetDataItem where
  ano : Option Int
  keys : List String
deriving DecidableEq

/-- JavaScript truthiness of the `ano` property: absent/`null`/`0` are falsy. -/
def anoTruthy : Option Int → Bool
  | none => false
  | some y => y != 0

/-- Embeds the predicate `item.ano && selectedYears.includes(item.ano)` of the
`filteredData` memo. -/
def anoIncluded (selectedYears : List Int) : Option Int → Bool
  | none => false
  | some y => (y != 0) && selectedYears.contains y

/-- The `filteredData` memo (dashboard page): empty when no year is selected,
otherwise the records whose truthy `ano` is among the selected years.  The
`data === null` case is handled by the callers through `Option`. -/
def filteredDataOf (data : List SheetDataItem) (selectedYears : List Int) : List SheetDataItem :=
  if selectedYears.isEmpty then []
  else data.filter (fun item => anoIncluded selectedYears item.ano)

/-- The key filter of the `tableHeaders` memo:
`key !== 'ano' && key !== 'percentuais'`. -/
def headerKeyKeep (k : String) : Bool :=
  (k != "ano") && (k != "percentuais")

/-- The `tableHeaders` memo: `Object.keys(filteredData[0])` minus the reserved
keys, and `[]` when the filtered data is empty. -/
def tableHeadersOf (data : List SheetDataItem) (selectedYears : List Int) : List String :=
  match filteredDataOf data selectedYears with
  | [] => []
  | item :: _ => item.keys.filter headerKeyKeep

/-- The year extraction of `loadSheetsData`:
`sheetsData.map(item => item.ano!).filter(Boolean)`. -/
def yearsOf (data : List SheetDataItem) : List Int :=
  ((data.map (fun item => item.ano)).filter anoTruthy).filterMap id

/-- The ascending sort `.sort((a, b) => a - b)` applied to the year list. -/
def sortYears (l : List Int) : List Int :=
  List.insertionSort (· ≤ ·) l

/-- The value stored in `availableYears` after a successful non-empty load. -/
def availableYearsOf (data : List SheetDataItem) : List Int :=
  sortYears (yearsOf data)

lemma anoIncluded_eq_false_of_falsy {a : Option Int} (h : anoTruthy a = false)
    (sel : List Int) : anoIncluded sel a = false := by
  cases a with
  | none => rfl
  | some y =>
    simp only [anoTruthy] at h
    simp [anoIncluded, h]

lemma yearsOf_append_falsy {r : SheetDataItem} (h : anoTruthy r.ano = false)
    (pre post : List SheetDataItem) :
    yearsOf (pre ++ r :: post) = yearsOf (pre ++ post) := by
  simp [yearsOf, List.filter_append, h]

lemma filteredDataOf_append_falsy {r : SheetDataItem} (h : anoTruthy r.ano = false)
    (pre post : List SheetDataItem) (sel : List Int) :
    filteredDataOf (pre ++ r :: post) sel = filteredDataOf (pre ++ post) sel := by
  unfold filteredDataOf
  split
  · rfl
  · simp [List.filter_append, anoIncluded_eq_false_of_falsy h]

lemma mem_filteredDataOf_truthy {data : List SheetDataItem} {sel : List Int}
    {x : SheetDataItem} (hx : x ∈ filteredDataOf data sel) : anoTruthy x.ano = true := by
  unfold filteredDataOf at hx
  split at hx
  · simp at hx
  · have h := List.of_mem_filter hx
    cases ha : x.ano with
    | none => rw [ha] at h; simp [anoIncluded] at h
    | some y =>
      rw [ha] at h
      simp only [anoIncluded, Bool.and_eq_true] at h
      simp [anoTruthy, ha, h.1]

/-- C10: a record whose `ano` is absent, `null` or `0` contributes nothing to
the available years and is excluded from the filtered rows; the available
years are exactly the truthy year values, sorted ascending. -/
theorem falsy_year_excluded (data pre post : List SheetDataItem) (sel : List Int)
    (r : SheetDataItem) (h : anoTruthy r.ano = false) :
    (availableYearsOf data).Sorted (· ≤ ·)
    ∧ (availableYearsOf data).Perm (yearsOf data)
    ∧ availableYearsOf (pre ++ r :: post) = availableYearsOf (pre ++ post)
    ∧ filteredDataOf (pre ++ r :: post) sel = filteredDataOf (pre ++ post) sel
    ∧ ∀ x ∈ filteredDataOf data sel, anoTruthy x.ano = true := by
  refine ⟨List.sorted_insertionSort _ _, List.perm_insertionSort _ _, ?_, ?_, ?_⟩
  · unfold availableYearsOf
    rw [yearsOf_append_falsy h]
  · exact filteredDataOf_append_falsy h pre post sel
  · intro x hx
    exact mem_filteredDataOf_truthy hx

/-- Witness for C10 at a concrete record set: a record with `ano = 0` is
dropped from both the available years and the filtered rows. -/
theorem falsy_year_excluded_witness :
    availableYearsOf [⟨some 2023, ["ano", "Receita"]⟩, ⟨some 0, ["ano", "Receita"]⟩]
      = availableYearsOf [⟨some 2023, ["ano", "Receita"]⟩]
    ∧ filteredDataOf [⟨some 2023, ["ano", "Receita"]⟩, ⟨some 0, ["ano", "Receita"]⟩] [2023]
      = filteredDataOf [⟨some 2023, ["ano", "Receita"]⟩] [2023] := by
  have h := falsy_year_excluded [⟨some 2023, ["ano", "Receita"]⟩]
    [⟨some 2023, ["ano", "Receita"]⟩] [] [2023] ⟨some 0, ["ano", "Receita"]⟩ (by decide)
  exact ⟨h.2.2.1, h.2.2.2.1⟩

/-- C1 counterexample: headers are recomputed from the first record of the
*filtered* data, so they are not invariant to the selected-years filter.
With one record (year 2023, one indicator), selecting year 2023 yields one
header while selecting no year yields none; with two records carrying
different key orders, two non-empty filters yield different headers. -/
theorem tableHeaders_filter_dependence :
    tableHeadersOf [⟨some 2023, ["ano", "Receita"]⟩] [2023]
      ≠ tableHeadersOf [⟨some 2023, ["ano", "Receita"]⟩] []
    ∧ tableHeadersOf [⟨some 2022, ["ano", "A"]⟩, ⟨some 2023, ["ano", "B"]⟩] [2022, 2023]
      ≠ tableHeadersOf [⟨some 2022, ["ano", "A"]⟩, ⟨some 2023, ["ano", "B"]⟩] [2023] := by
  constructor
  · decide
  · decide

/-- C1 amended: the headers are recomputed per filter from the first filtered
record; when all records share one key sequence, any two filters whose
filtered record sets are non-empty produce the same headers, namely the
shared key sequence minus the reserved keys. -/
theorem tableHeaders_uniform_keys_invariant (data : List SheetDataItem)
    (ks : List String) (s1 s2 : List Int)
    (hk : ∀ r ∈ data, r.keys = ks)
    (h1 : filteredDataOf data s1 ≠ [])
    (h2 : filteredDataOf data s2 ≠ []) :
    tableHeadersOf data s1 = ks.filter headerKeyKeep
    ∧ tableHeadersOf data s1 = tableHeadersOf data s2 := by
  have head_keys : ∀ s : List Int, filteredDataOf data s ≠ [] →
      tableHeadersOf data s = ks.filter headerKeyKeep := by
    intro s hs
    unfold tableHeadersOf
    cases hfd : filteredDataOf data s with
    | nil => exact absurd hfd hs
    | cons item rest =>
      have hmem : item ∈ filteredDataOf data s := by
        rw [hfd]; exact List.mem_cons_self item rest
      have hitem : item ∈ data := by
        unfold filteredDataOf at hmem
        split at hmem
        · simp at hmem
        · exact List.mem_of_mem_filter hmem
      show item.keys.filter headerKeyKeep = ks.filter headerKeyKeep
      rw [hk item hitem]
  refine ⟨head_keys s1 h1, ?_⟩
  rw [head_keys s1 h1, head_keys s2 h2]

/-- Witness for the amended C1 at a concrete record set and two filters. -/
theorem tableHeaders_uniform_keys_invariant_witness :
    tableHeadersOf [⟨some 2022, ["ano", "Receita", "percentuais"]⟩,
        ⟨some 2023, ["ano", "Receita", "percentuais"]⟩] [2022, 2023] = ["Receita"]
    ∧ tableHeadersOf [⟨some 2022, ["ano", "Receita", "percentuais"]⟩,
        ⟨some 2023, ["ano", "Receita", "percentuais"]⟩] [2022, 2023]
      = tableHeadersOf [⟨some 2022, ["ano", "Receita", "percentuais"]⟩,
        ⟨some 2023, ["ano", "Receita", "percentuais"]⟩] [2023] := by
  have h := tableHeaders_uniform_keys_invariant
    [⟨some 2022, ["ano", "Receita", "percentuais"]⟩,
      ⟨some 2023, ["ano", "Receita", "percentuais"]⟩]
    ["ano", "Receita", "percentuais"] [2022, 2023] [2023]
    (by decide) (by decide) (by decide)
  exact ⟨h.1, h.2⟩

/-! ### Selection engine

The DOM-class based selection of the dashboard table, embedded as pure data:
`cells` holds the coordinates of the `td` elements carrying
`cell-selecionada`, `colHeaders` the `data-col` values of the `th` elements
carrying `cabecalho-selecionado`, `rowHeaders` the `data-row` values of the
`td` elements carrying `indicador-selecionado`, and `anchor` the
`lastClickedCoords` ref.  `grid` is the set of `(data-row, data-col)` pairs
of the rendered `.planilha-valor` cells. -/

/-- The `type` tag of `lastClickedCoords`: `'cell' | 'col' | 'row'`. -/
inductive CoordKind where
  | cell
  | col
  | row
deriving DecidableEq

/-- The `lastClickedCoords` payload: `{ row, col, type }`. -/
structure Anchor where
  row : Int
  col : Int
  type : CoordKind
deriving DecidableEq

/-- The selection state: the three class partitions plus the anchor ref. -/
@[ext]
structure SelectionState where
  cells : Finset (Int × Int)
  colHeaders : Finset Int
  rowHeaders : Finset Int
  anchor : Option Anchor
deriving DecidableEq

/-- Pointer-interaction state owned by the page besides the selection:
`isMouseDown` and the `startCellCoords` ref. -/
@[ext]
structure GridState where
  sel : SelectionState
  isMouseDown : Bool
  startCellCoords : Option (Int × Int)
deriving DecidableEq

/-- Mouse-event modifier keys consulted by the handlers. -/
structure Modifiers where
  ctrlKey : Bool
  metaKey : Bool
  shiftKey : Bool
deriving DecidableEq

/-- A plain click: no modifier pressed. -/
def noModifiers : Modifiers := ⟨false, false, false⟩

/-- A shift-click: only the shift key pressed. -/
def shiftOnlyMods : Modifiers := ⟨false, false, true⟩

/-- Embeds `clearSelection`: removes every selection class and nulls
`lastClickedCoords`. -/
def clearSelection (_s : SelectionState) : SelectionState :=
  { cells := ∅, colHeaders := ∅, rowHeaders := ∅, anchor := none }

/-- Models a `classList.toggle` membership flip on a set of selected addresses. -/
def toggleMem {α : Type} [DecidableEq α] (a : α) (s : Finset α) : Finset α :=
  if a ∈ s then s.erase a else insert a s

/-- Models `classList.toggle` applied to every member of `t` inside `s`. -/
def toggleAll (t s : Finset (Int × Int)) : Finset (Int × Int) :=
  (s \ t) ∪ (t \ s)

/-- The rendered cells of one column:
`td[data-col="${colIndex}"].planilha-valor`. -/
def colCells (grid : Finset (Int × Int)) (colIndex : Int) : Finset (Int × Int) :=
  grid.filter (fun p => p.2 = colIndex)

/-- The rendered cells of one row: the `.planilha-valor` cells of the row's
`tr`. -/
def rowCells (grid : Finset (Int × Int)) (rowIndex : Int) : Finset (Int × Int) :=
  grid.filter (fun p => p.1 = rowIndex)

/-- Embeds `selectCellsInRange`: replaces the cell selection with the rendered cells
inside the rectangle spanned by the min/max of the two endpoints' rows and
columns. -/
def selectCellsInRange (grid : Finset (Int × Int)) (start stop : Int × Int) :
    Finset (Int × Int) :=
  grid.filter (fun c =>
    min start.1 stop.1 ≤ c.1 ∧ c.1 ≤ max start.1 stop.1 ∧
    min start.2 stop.2 ≤ c.2 ∧ c.2 ≤ max start.2 stop.2)

set_option linter.unusedVariables false in
/-- Embeds `handleCellMouseDown`: `setIsMouseDown(true)` runs first on every
path.  Ctrl/meta toggles the single cell, re-anchors, and records
`startCellCoords`.  An unmodified click (or a shift-click whose anchor is
missing or not of kind cell) clears everything, selects exactly the clicked
cell, re-anchors, and records `startCellCoords`.  The shift-with-cell-anchor
branch is the source's error path: it calls `clearSelection()`, which nulls
`lastClickedCoords`, and only then passes `lastClickedCoords.current` — now
`null` — to `selectCellsInRange`, which throws a `TypeError` reading
`start.row`; the handler aborts there, so the selection stays empty, the
anchor stays `null`, and `startCellCoords` is NOT updated (the `grid`
argument is never consulted because the range computation never runs). -/
def handleCellMouseDown (grid : Finset (Int × Int)) (mods : Modifiers)
    (coord : Int × Int) (s : GridState) : GridState :=
  let s1 : GridState := { s with isMouseDown := true }
  let noneBranch : GridState :=
    let cleared := clearSelection s1.sel
    { s1 with
        sel := { cleared with
          cells := insert coord cleared.cells,
          anchor := some ⟨coord.1, coord.2, CoordKind.cell⟩ },
        startCellCoords := some coord }
  if mods.ctrlKey || mods.metaKey then
    { s1 with
        sel := { s1.sel with
          cells := toggleMem coord s1.sel.cells,
          anchor := some ⟨coord.1, coord.2, CoordKind.cell⟩ },
        startCellCoords := some coord }
  else
    match s1.sel.anchor with
    | some a =>
        if mods.shiftKey && (a.type == CoordKind.cell) then
          { s1 with sel := clearSelection s1.sel }
        else noneBranch
    | none => noneBranch

/-- Embeds `handleCellMouseOver`: while the mouse is down with a recorded start cell,
recompute the rectangle selection between the start cell and the hovered
cell. -/
def handleCellMouseOver (grid : Finset (Int × Int)) (coord : Int × Int)
    (s : GridState) : GridState :=
  if s.isMouseDown then
    match s.startCellCoords with
    | some start =>
        { s with sel := { s.sel with cells := selectCellsInRange grid start coord } }
    | none => s
  else s

/-- Embeds `handleColHeaderClick`: an unmodified click first clears; ctrl/meta
toggles the header and each cell of the column and re-anchors; shift with a
column anchor selects the span of columns (headers restricted to the rendered
`th` elements, the anchor stays nulled); otherwise clear-and-select the
clicked column. -/
def handleColHeaderClick (grid : Finset (Int × Int)) (colIds : Finset Int)
    (mods : Modifiers) (colIndex : Int) (s : GridState) : GridState :=
  let sel0 := if !mods.ctrlKey && !mods.shiftKey then clearSelection s.sel else s.sel
  let normalCol : GridState :=
    let cleared := clearSelection sel0
    { s with sel := { cleared with
        colHeaders := insert colIndex cleared.colHeaders,
        cells := cleared.cells ∪ colCells grid colIndex,
        anchor := some ⟨-1, colIndex, CoordKind.col⟩ } }
  if mods.ctrlKey || mods.metaKey then
    { s with sel := { sel0 with
        colHeaders := toggleMem colIndex sel0.colHeaders,
        cells := toggleAll (colCells grid colIndex) sel0.cells,
        anchor := some ⟨-1, colIndex, CoordKind.col⟩ } }
  else
    match sel0.anchor with
    | some a =>
        if mods.shiftKey && (a.type == CoordKind.col) then
          let lo := min a.col colIndex
          let hi := max a.col colIndex
          let cleared := clearSelection sel0
          { s with sel := { cleared with
              colHeaders := colIds.filter (fun i => lo ≤ i ∧ i ≤ hi),
              cells := grid.filter (fun p => lo ≤ p.2 ∧ p.2 ≤ hi) } }
        else normalCol
    | none => normalCol

/-- Embeds `handleRowHeaderClick`: the row mirror of `handleColHeaderClick`. -/
def handleRowHeaderClick (grid : Finset (Int × Int)) (rowIds : Finset Int)
    (mods : Modifiers) (rowIndex : Int) (s : GridState) : GridState :=
  let sel0 := if !mods.ctrlKey && !mods.shiftKey then clearSelection s.sel else s.sel
  let normalRow : GridState :=
    let cleared := clearSelection sel0
    { s with sel := { cleared with
        rowHeaders := insert rowIndex cleared.rowHeaders,
        cells := cleared.cells ∪ rowCells grid rowIndex,
        anchor := some ⟨rowIndex, -1, CoordKind.row⟩ } }
  if mods.ctrlKey || mods.metaKey then
    { s with sel := { sel0 with
        rowHeaders := toggleMem rowIndex sel0.rowHeaders,
        cells := toggleAll (rowCells grid rowIndex) sel0.cells,
        anchor := some ⟨rowIndex, -1, CoordKind.row⟩ } }
  else
    match sel0.anchor with
    | some a =>
        if mods.shiftKey && (a.type == CoordKind.row) then
          let lo := min a.row rowIndex
          let hi := max a.row rowIndex
          let cleared := clearSelection sel0
          { s with sel := { cleared with
              rowHeaders := rowIds.filter (fun i => lo ≤ i ∧ i ≤ hi),
              cells := grid.filter (fun p => lo ≤ p.1 ∧ p.1 ≤ hi) } }
        else normalRow
    | none => normalRow

/-- The kind of the current anchor, when any. -/
def anchorType (a : Option Anchor) : Option CoordKind :=
  a.map Anchor.type

/-- C6: `clearSelection` empties all three partitions and resets the anchor,
from any selection state. -/
theorem clearSelection_empties_all (s : SelectionState) :
    (clearSelection s).cells.card = 0
    ∧ (clearSelection s).colHeaders.card = 0
    ∧ (clearSelection s).rowHeaders.card = 0
    ∧ (clearSelection s).anchor = none := by
  simp [clearSelection]

/-- C4: range selection is commutative in its endpoints and selects exactly
the rendered cells of the rectangle spanned by the min/max of rows and
columns. -/
theorem selectCellsInRange_comm (grid : Finset (Int × Int)) (a b : Int × Int) :
    selectCellsInRange grid a b = selectCellsInRange grid b a
    ∧ ∀ c, c ∈ selectCellsInRange grid a b ↔
        c ∈ grid ∧ min a.1 b.1 ≤ c.1 ∧ c.1 ≤ max a.1 b.1
          ∧ min a.2 b.2 ≤ c.2 ∧ c.2 ≤ max a.2 b.2 := by
  constructor
  · apply Finset.filter_congr
    intro c _
    rw [min_comm a.1 b.1, max_comm a.1 b.1, min_comm a.2 b.2, max_comm a.2 b.2]
  · intro c
    simp [selectCellsInRange, Finset.mem_filter, and_assoc]

/-- C5: when the anchor kind does not match the requested range kind, a
shift-click on a cell, a column header or a row header behaves exactly like
an unmodified click: everything is cleared, exactly the clicked target is
selected, and the anchor is set to the clicked coordinate and kind. -/
theorem anchor_mismatch_degrades_to_none (grid : Finset (Int × Int))
    (colIds rowIds : Finset Int) (s : GridState) (coord : Int × Int) (ci ri : Int) :
    (anchorType s.sel.anchor ≠ some CoordKind.cell →
      handleCellMouseDown grid shiftOnlyMods coord s
        = handleCellMouseDown grid noModifiers coord s
      ∧ (handleCellMouseDown grid shiftOnlyMods coord s).sel
        = ⟨{coord}, ∅, ∅, some ⟨coord.1, coord.2, CoordKind.cell⟩⟩)
    ∧ (anchorType s.sel.anchor ≠ some CoordKind.col →
      handleColHeaderClick grid colIds shiftOnlyMods ci s
        = handleColHeaderClick grid colIds noModifiers ci s
      ∧ (handleColHeaderClick grid colIds shiftOnlyMods ci s).sel
        = ⟨colCells grid ci, {ci}, ∅, some ⟨-1, ci, CoordKind.col⟩⟩)
    ∧ (anchorType s.sel.anchor ≠ some CoordKind.row →
      handleRowHeaderClick grid rowIds shiftOnlyMods ri s
        = handleRowHeaderClick grid rowIds noModifiers ri s
      ∧ (handleRowHeaderClick grid rowIds shiftOnlyMods ri s).sel
        = ⟨rowCells grid ri, ∅, {ri}, some ⟨ri, -1, CoordKind.row⟩⟩) := by
  refine ⟨?_, ?_, ?_⟩ <;> intro h
  all_goals
    cases ha : s.sel.anchor with
    | none =>
        simp [handleCellMouseDown, handleColHeaderClick, handleRowHeaderClick,
          clearSelection, shiftOnlyMods, noModifiers, ha, SelectionState.ext_iff,
          GridState.ext_iff]
    | some a =>
        rw [anchorType, ha] at h
        cases hty : a.type <;>
          simp_all [handleCellMouseDown, handleColHeaderClick, handleRowHeaderClick,
            clearSelection, shiftOnlyMods, noModifiers, SelectionState.ext_iff,
            GridState.ext_iff]

/-- Witness for C5: concrete mismatched anchors (a column anchor before a
shift-click on a cell; a cell anchor before shift-clicks on a column header
and on a row header) at a concrete 2×2 grid. -/
theorem anchor_mismatch_degrades_to_none_witness :
    handleCellMouseDown ({((0 : Int), (0 : Int)), (0, 1), (1, 0), (1, 1)})
        shiftOnlyMods (0, 1) ⟨⟨∅, ∅, ∅, some ⟨-1, 0, CoordKind.col⟩⟩, false, none⟩
      = handleCellMouseDown ({((0 : Int), (0 : Int)), (0, 1), (1, 0), (1, 1)})
        noModifiers (0, 1) ⟨⟨∅, ∅, ∅, some ⟨-1, 0, CoordKind.col⟩⟩, false, none⟩
    ∧ (handleColHeaderClick ({((0 : Int), (0 : Int)), (0, 1), (1, 0), (1, 1)})
        ({0, 1}) shiftOnlyMods 0 ⟨⟨∅, ∅, ∅, some ⟨0, 0, CoordKind.cell⟩⟩, false, none⟩).sel
      = ⟨colCells ({((0 : Int), (0 : Int)), (0, 1), (1, 0), (1, 1)}) 0, {0}, ∅,
          some ⟨-1, 0, CoordKind.col⟩⟩
    ∧ (handleRowHeaderClick ({((0 : Int), (0 : Int)), (0, 1), (1, 0), (1, 1)})
        ({0, 1}) shiftOnlyMods 1 ⟨⟨∅, ∅, ∅, some ⟨0, 0, CoordKind.cell⟩⟩, false, none⟩).sel
      = ⟨rowCells ({((0 : Int), (0 : Int)), (0, 1), (1, 0), (1, 1)}) 1, ∅, {1},
          some ⟨1, -1, CoordKind.row⟩⟩ := by
  refine ⟨?_, ?_, ?_⟩
  · exact (anchor_mismatch_degrades_to_none _ ∅ ∅
      ⟨⟨∅, ∅, ∅, some ⟨-1, 0, CoordKind.col⟩⟩, false, none⟩ (0, 1) 0 0).1
      (by decide) |>.1
  · exact ((anchor_mismatch_degrades_to_none _ ({0, 1}) ∅
      ⟨⟨∅, ∅, ∅, some ⟨0, 0, CoordKind.cell⟩⟩, false, none⟩ (0, 0) 0 0).2.1
      (by decide)).2
  · exact ((anchor_mismatch_degrades_to_none _ ∅ ({0, 1})
      ⟨⟨∅, ∅, ∅, some ⟨0, 0, CoordKind.cell⟩⟩, false, none⟩ (0, 0) 0 1).2.2
      (by decide)).2

/-! ### Dashboard fetch lifecycle and page state machine

The dashboard's `useState` variables, the `loadSheetsData` callback split
into its synchronous start and its asynchronous continuation, and a step
function over the discrete events the page reacts to.  `redirectedToLogin`
models `router.replace('/login')` having been issued (the unauthenticated
terminal state). -/

/-- Outcome of one `fetchSheetsData` call: resolved data, or a rejection
carrying the HTTP status when a response exists (`err.response.status`). -/
inductive FetchResult where
  | ok (sheetsData : List SheetDataItem)
  | errorResp (status : Option Nat) (msg : String)
deriving DecidableEq

/-- The dashboard's state variables. -/
structure DashState where
  initialLoading : Bool
  currentTabLoading : Bool
  data : Option (List SheetDataItem)
  error : String
  sheetTabs : List String
  selectedTab : String
  availableYears : List Int
  selectedYears : List Int
  redirectedToLogin : Bool
deriving DecidableEq

/-- The synchronous prefix of `loadSheetsData`: bail out on an empty tab
name, otherwise enter tab-loading and reset the error. -/
def loadSheetsDataStart (tabName : String) (s : DashState) : DashState :=
  if tabName = "" then s
  else { s with currentTabLoading := true, error := "" }

set_option linter.unusedVariables false in
/-- The continuation of `loadSheetsData` once the fetch for `tabName`
settles.  The source closure never reads `tabName` again and never compares
it with the currently selected tab: whatever response arrives is applied to
the state as-is. -/
def loadSheetsDataResolve (tabName : String) (r : FetchResult) (s : DashState) : DashState :=
  match r with
  | FetchResult.ok sheetsData =>
      let s1 := { s with data := some sheetsData }
      let s2 :=
        if sheetsData.length > 0 then
          let years := availableYearsOf sheetsData
          { s1 with availableYears := years, selectedYears := years }
        else { s1 with availableYears := [], selectedYears := [] }
      { s2 with currentTabLoading := false }
  | FetchResult.errorResp status msg =>
      let s2 :=
        if status == some 401 then
          { s with error := "Sessão expirada ou não autorizada. Faça login novamente.",
                   redirectedToLogin := true }
        else { s with error := "Erro ao carregar dados da aba: " ++ msg }
      { s2 with currentTabLoading := false }

/-- Embeds `handleYearToggle` on the previous selection: remove a present year,
otherwise append it and sort ascending. -/
def handleYearToggle (year : Int) (prev : List Int) : List Int :=
  if prev.contains year then prev.filter (fun y => y != year)
  else sortYears (prev ++ [year])

/-- Embeds `handleToggleAllYears`: select-all sets the selection to the available
years (the source sorts `availableYears` in place, so both variables end up
holding the sorted list); select-none empties the selection. -/
def handleToggleAllYears (checkAll : Bool) (s : DashState) : DashState :=
  if checkAll then
    let sorted := sortYears s.availableYears
    { s with availableYears := sorted, selectedYears := sorted }
  else { s with selectedYears := [] }

/-- The `tableHeaders` memo at page level (empty while `data` is `null`). -/
def tableHeadersOfState (s : DashState) : List String :=
  match s.data with
  | none => []
  | some d => tableHeadersOf d s.selectedYears

/-- The integers `0, …, n-1`, as rendered `data-row` / `data-col` values. -/
def intRange (n : Nat) : Finset Int :=
  (Finset.range n).image Int.ofNat

/-- Whether the column at index `c` has a backing record:
`data?.find(d => d.ano === year)` succeeds for `selectedYears[c]`.  Columns
without a record render a plain `td` without the `planilha-valor` class. -/
def colHasItem (s : DashState) (c : Int) : Bool :=
  if c < 0 then false
  else
    match s.selectedYears[c.toNat]? with
    | none => false
    | some y => ((s.data.getD []).find? (fun d => d.ano == some y)).isSome

/-- The `data-col` values of the rendered year headers. -/
def colIdsOf (s : DashState) : Finset Int :=
  intRange s.selectedYears.length

/-- The `data-row` values of the rendered indicator cells. -/
def rowIdsOf (s : DashState) : Finset Int :=
  intRange (tableHeadersOfState s).length

/-- The `(data-row, data-col)` addresses of the rendered `.planilha-valor`
cells. -/
def renderedCells (s : DashState) : Finset (Int × Int) :=
  (intRange (tableHeadersOfState s).length ×ˢ intRange s.selectedYears.length).filter
    (fun p => colHasItem s p.2 = true)

/-- Whether a record backing year `y` exists:
`data?.find(d => d.ano === y)` succeeds. -/
def yearHasItem (s : DashState) (y : Int) : Bool :=
  ((s.data.getD []).find? (fun d => d.ano == some y)).isSome

/-!
When a dashboard state change re-renders the table, React reconciles the
DOM by keys: `tr` elements by header name, year `th` elements by year value,
and value `td` elements by the `header-year` pair.  An element that is
matched keeps the imperatively added selection class as long as its
`className` prop is unchanged (a `planilha-valor` cell whose backing record
disappears is re-rendered as a plain `td`, which rewrites `className` and
drops the class), while its `data-row` / `data-col` attributes are updated
to the new indices.  An element whose key is gone is unmounted together
with its class.  The `lastClickedCoords` and `startCellCoords` refs and the
`isMouseDown` flag are plain mutable state and persist unchanged.  The
`remap` functions below translate each class-bearing address from the old
render to the new one, or drop it. -/

/-- Reconciliation of one selected `.planilha-valor` cell across a
dashboard change: resolve its header name and year from the old render,
follow them to their new indices, and keep the class only if the same
`header-year` key is rendered as a value cell again. -/
def remapCell (d dNew : DashState) (p : Int × Int) : Option (Int × Int) :=
  if p.1 < 0 ∨ p.2 < 0 then none
  else
    match (tableHeadersOfState d)[p.1.toNat]?, d.selectedYears[p.2.toNat]? with
    | some h, some y =>
        match (tableHeadersOfState dNew).findIdx? (fun k => k == h),
            dNew.selectedYears.findIdx? (fun z => z == y) with
        | some rNew, some cNew =>
            if yearHasItem dNew y then some ((rNew : Int), (cNew : Int)) else none
        | _, _ => none
    | _, _ => none

/-- Reconciliation of one selected year header (`th` keyed by year value). -/
def remapColHeader (d dNew : DashState) (c : Int) : Option Int :=
  if c < 0 then none
  else
    match d.selectedYears[c.toNat]? with
    | some y => (dNew.selectedYears.findIdx? (fun z => z == y)).map (fun i => (i : Int))
    | none => none

/-- Reconciliation of one selected indicator cell (`tr` keyed by header
name). -/
def remapRowHeader (d dNew : DashState) (r : Int) : Option Int :=
  if r < 0 then none
  else
    match (tableHeadersOfState d)[r.toNat]? with
    | some h => ((tableHeadersOfState dNew).findIdx? (fun k => k == h)).map (fun i => (i : Int))
    | none => none

/-- The effect of the re-render triggered by a dashboard change on the
selection: every partition is remapped per keyed reconciliation, and the
anchor ref plus the pointer state persist unchanged. -/
def remapSelection (d dNew : DashState) (g : GridState) : GridState :=
  { g with sel :=
    { cells := (g.sel.cells.filter (fun p => (remapCell d dNew p).isSome = true)).image
        (fun p => (remapCell d dNew p).getD (0, 0)),
      colHeaders := (g.sel.colHeaders.filter (fun c => (remapColHeader d dNew c).isSome = true)).image
        (fun c => (remapColHeader d dNew c).getD 0),
      rowHeaders := (g.sel.rowHeaders.filter (fun r => (remapRowHeader d dNew r).isSome = true)).image
        (fun r => (remapRowHeader d dNew r).getD 0),
      anchor := g.sel.anchor } }

/-- The whole page: dashboard variables plus the selection engine state. -/
structure PageState where
  dash : DashState
  grid : GridState
deriving DecidableEq

/-- The discrete external events the page processes one at a time. -/
inductive PageEvent where
  | selectTab (t : String)
  | respond (t : String) (r : FetchResult)
  | yearToggle (y : Int)
  | toggleAllYears (checkAll : Bool)
  | cellMouseDown (mods : Modifiers) (coord : Int × Int)
  | cellMouseOver (coord : Int × Int)
  | colHeaderClick (mods : Modifiers) (colIndex : Int)
  | rowHeaderClick (mods : Modifiers) (rowIndex : Int)
  | outsideMouseDown
  | mouseUp
deriving DecidableEq

/-- One synchronous state transition of the page.  `selectTab` runs
`handleTabChange` and the tab-change effect (which starts a fetch when the
tab is non-empty and the initial load is over); `respond` runs the
`loadSheetsData` continuation for a settled fetch; `outsideMouseDown` is the
document-level mousedown outside the table; `mouseUp` is the document-level
mouseup.  Every dashboard state change triggers a re-render, so the four
dataset events pass the selection through `remapSelection` (keyed
reconciliation), never through `clearSelection`. -/
def pageStep (p : PageState) : PageEvent → PageState
  | PageEvent.selectTab t =>
      let d1 := { p.dash with selectedTab := t }
      let d2 := if t != "" && !d1.initialLoading then loadSheetsDataStart t d1 else d1
      { dash := d2, grid := remapSelection p.dash d2 p.grid }
  | PageEvent.respond t r =>
      let d2 := loadSheetsDataResolve t r p.dash
      { dash := d2, grid := remapSelection p.dash d2 p.grid }
  | PageEvent.yearToggle y =>
      let d2 := { p.dash with selectedYears := handleYearToggle y p.dash.selectedYears }
      { dash := d2, grid := remapSelection p.dash d2 p.grid }
  | PageEvent.toggleAllYears checkAll =>
      let d2 := handleToggleAllYears checkAll p.dash
      { dash := d2, grid := remapSelection p.dash d2 p.grid }
  | PageEvent.cellMouseDown mods coord =>
      { p with grid := handleCellMouseDown (renderedCells p.dash) mods coord p.grid }
  | PageEvent.cellMouseOver coord =>
      { p with grid := handleCellMouseOver (renderedCells p.dash) coord p.grid }
  | PageEvent.colHeaderClick mods colIndex =>
      { p with grid := handleColHeaderClick (renderedCells p.dash) (colIdsOf p.dash) mods colIndex p.grid }
  | PageEvent.rowHeaderClick mods rowIndex =>
      { p with grid := handleRowHeaderClick (renderedCells p.dash) (rowIdsOf p.dash) mods rowIndex p.grid }
  | PageEvent.outsideMouseDown => { p with grid := { p.grid with sel := clearSelection p.grid.sel } }
  | PageEvent.mouseUp => { p with grid := { p.grid with isMouseDown := false } }

/-- Folding a sequence of events over the page state. -/
def runPage (p : PageState) (events : List PageEvent) : PageState :=
  events.foldl pageStep p

/-- A freshly initialized page: tab list loaded as `["A", "B"]`, first tab
auto-selected, no data yet, empty selection. -/
def page0 : PageState :=
  ⟨⟨false, false, none, "", ["A", "B"], "A", [], [], false⟩,
   ⟨⟨∅, ∅, ∅, none⟩, false, none⟩⟩

/-- C2 counterexample: the page applies responses in arrival order with no
staleness guard.  After switching from tab "A" to tab "B" and after the
fetch for "B" has already succeeded, a late unauthorized response for the
stale tab "A" still transitions the page to the unauthenticated state, and a
late data response for "A" overwrites the view data while "B" stays
selected. -/
theorem stale_response_updates_state :
    (runPage page0
        [PageEvent.selectTab "B",
         PageEvent.respond "B" (FetchResult.ok [⟨some 2023, ["ano", "Receita"]⟩]),
         PageEvent.respond "A" (FetchResult.errorResp (some 401) "Unauthorized")]).dash.redirectedToLogin
      = true
    ∧ (runPage page0
        [PageEvent.selectTab "B",
         PageEvent.respond "B" (FetchResult.ok [⟨some 2023, ["ano", "Receita"]⟩]),
         PageEvent.respond "A" (FetchResult.errorResp (some 401) "Unauthorized")]).dash.selectedTab
      = "B"
    ∧ (runPage page0
        [PageEvent.selectTab "B",
         PageEvent.respond "B" (FetchResult.ok [⟨some 2023, ["ano", "Receita"]⟩]),
         PageEvent.respond "A" (FetchResult.ok [⟨some 1999, ["ano", "Custo"]⟩])]).dash.data
      = some [⟨some 1999, ["ano", "Custo"]⟩] := by
  refine ⟨?_, ?_, ?_⟩ <;> decide

/-- C2 amended: responses are applied in arrival order regardless of which
tab they were requested for — the resolution step does not depend on the
requesting tab, never changes the selected tab, and an unauthorized response
always transitions to the unauthenticated state, selected tab and pending
newer requests notwithstanding. -/
theorem loadSheetsData_resolution_ignores_request_tab :
    (∀ (s : DashState) (t t2 : String) (r : FetchResult),
        loadSheetsDataResolve t r s = loadSheetsDataResolve t2 r s)
    ∧ (∀ (s : DashState) (t m : String),
        (loadSheetsDataResolve t (FetchResult.errorResp (some 401) m) s).redirectedToLogin = true)
    ∧ (∀ (s : DashState) (t : String) (r : FetchResult),
        (loadSheetsDataResolve t r s).selectedTab = s.selectedTab) := by
  refine ⟨fun s t t2 r => rfl, fun s t m => rfl, fun s t r => ?_⟩
  cases r with
  | ok sheetsData =>
      simp only [loadSheetsDataResolve]
      split <;> rfl
  | errorResp status msg =>
      simp only [loadSheetsDataResolve]
      split <;> rfl

/-- C3 counterexample: after loading tab "A" (years 2022 and 2023) and
selecting cell `(0, 0)` — the `td` keyed `Receita-2022` — with a plain
click, toggling OFF the other year 2023 re-renders the table, but the
selected `td` is reconciled by its unchanged key at the same indices and
keeps its class, and the `lastClickedCoords` ref persists; a subsequent tab
switch (table content unchanged until the response arrives) also leaves
both in place.  The claim demands empty partitions and a `none` anchor
after every such dataset change. -/
theorem yearToggle_preserves_selection :
    (runPage page0
        [PageEvent.respond "A"
            (FetchResult.ok [⟨some 2022, ["ano", "Receita"]⟩, ⟨some 2023, ["ano", "Receita"]⟩]),
         PageEvent.cellMouseDown noModifiers (0, 0),
         PageEvent.mouseUp,
         PageEvent.yearToggle 2023,
         PageEvent.selectTab "B"]).grid.sel.cells.card = 1
    ∧ (runPage page0
        [PageEvent.respond "A"
            (FetchResult.ok [⟨some 2022, ["ano", "Receita"]⟩, ⟨some 2023, ["ano", "Receita"]⟩]),
         PageEvent.cellMouseDown noModifiers (0, 0),
         PageEvent.mouseUp,
         PageEvent.yearToggle 2023,
         PageEvent.selectTab "B"]).grid.sel.anchor
      = some ⟨0, 0, CoordKind.cell⟩ := by
  constructor <;> decide

lemma mem_remapSelection_cells (d dNew : DashState) (g : GridState) (cp : Int × Int) :
    cp ∈ (remapSelection d dNew g).sel.cells ↔
      ∃ c ∈ g.sel.cells, remapCell d dNew c = some cp := by
  simp only [remapSelection, Finset.mem_image, Finset.mem_filter]
  constructor
  · rintro ⟨c, ⟨hc, hs⟩, heq⟩
    refine ⟨c, hc, ?_⟩
    obtain ⟨v, hv⟩ := Option.isSome_iff_exists.mp hs
    rw [hv] at heq ⊢
    simp only [Option.getD_some] at heq
    rw [heq]
  · rintro ⟨c, hc, hsome⟩
    exact ⟨c, ⟨hc, by simp [hsome]⟩, by simp [hsome]⟩

/-- C3 amended: no dataset event invokes `clearSelection` — tab switches,
year toggles, select-all/none and data-load completions all preserve the
`lastClickedCoords` anchor ref and the pointer state unchanged, and they
pass the cell partition through the keyed-reconciliation remap (selected
cells whose header-year key persists stay selected, the rest are unmounted
by the re-render), rather than emptying the partitions or resetting the
anchor. -/
theorem dataset_events_never_clear (p : PageState) (t : String)
    (y : Int) (b : Bool) (r : FetchResult) :
    ((pageStep p (PageEvent.selectTab t)).grid.sel.anchor = p.grid.sel.anchor
      ∧ (pageStep p (PageEvent.yearToggle y)).grid.sel.anchor = p.grid.sel.anchor
      ∧ (pageStep p (PageEvent.toggleAllYears b)).grid.sel.anchor = p.grid.sel.anchor
      ∧ (pageStep p (PageEvent.respond t r)).grid.sel.anchor = p.grid.sel.anchor)
    ∧ ((pageStep p (PageEvent.yearToggle y)).grid.isMouseDown = p.grid.isMouseDown
      ∧ (pageStep p (PageEvent.yearToggle y)).grid.startCellCoords = p.grid.startCellCoords
      ∧ (pageStep p (PageEvent.respond t r)).grid.isMouseDown = p.grid.isMouseDown
      ∧ (pageStep p (PageEvent.respond t r)).grid.startCellCoords = p.grid.startCellCoords)
    ∧ (∀ cp : Int × Int,
        cp ∈ (pageStep p (PageEvent.yearToggle y)).grid.sel.cells ↔
          ∃ c ∈ p.grid.sel.cells,
            remapCell p.dash
              { p.dash with selectedYears := handleYearToggle y p.dash.selectedYears } c
              = some cp) := by
  refine ⟨⟨rfl, rfl, rfl, rfl⟩, ⟨rfl, rfl, rfl, rfl⟩, ?_⟩
  intro cp
  exact mem_remapSelection_cells p.dash _ p.grid cp

lemma yearsOf_perm {xs ys : List SheetDataItem} (h : xs.Perm ys) :
    (yearsOf xs).Perm (yearsOf ys) := by
  unfold yearsOf
  exact ((h.map (fun item => item.ano)).filter anoTruthy).filterMap id

lemma sortYears_eq_of_perm {l1 l2 : List Int} (h : l1.Perm l2) :
    sortYears l1 = sortYears l2 := by
  unfold sortYears
  have hs1 : List.Sorted (fun a b : Int => a ≤ b) (List.insertionSort (· ≤ ·) l1) :=
    List.sorted_insertionSort _ l1
  have hs2 : List.Sorted (fun a b : Int => a ≤ b) (List.insertionSort (· ≤ ·) l2) :=
    List.sorted_insertionSort _ l2
  exact List.eq_of_perm_of_sorted
    ((List.perm_insertionSort _ l1).trans (h.trans (List.perm_insertionSort _ l2).symm))
    hs1 hs2

lemma yearsOf_eq_filterMap_of_truthy {xs : List SheetDataItem}
    (h : ∀ r ∈ xs, anoTruthy r.ano = true) :
    yearsOf xs = xs.filterMap SheetDataItem.ano := by
  have hall : ∀ a ∈ xs.map (fun item => item.ano), anoTruthy a = true := by
    intro a ha
    obtain ⟨r, hrmem, rfl⟩ := List.mem_map.mp ha
    exact h r hrmem
  unfold yearsOf
  rw [List.filter_eq_self.mpr hall, List.filterMap_map]
  rfl

/-- C7: a successful non-empty load sets the available years to the
ascending-sorted years of the received records and the selected years to
that same list, independently of the previous state (in particular of the
previously selected years), of the tab the request was issued for, and of
the order the records arrived in. -/
theorem load_success_resets_years (s s2 : DashState) (t t2 : String)
    (xs ys : List SheetDataItem)
    (hne : xs ≠ [])
    (hy : ∀ r ∈ xs, anoTruthy r.ano = true)
    (hperm : xs.Perm ys) :
    (loadSheetsDataResolve t (FetchResult.ok xs) s).availableYears = availableYearsOf xs
    ∧ ((loadSheetsDataResolve t (FetchResult.ok xs) s).availableYears).Sorted (· ≤ ·)
    ∧ (loadSheetsDataResolve t (FetchResult.ok xs) s).selectedYears
        = (loadSheetsDataResolve t (FetchResult.ok xs) s).availableYears
    ∧ ((loadSheetsDataResolve t (FetchResult.ok xs) s).availableYears).Perm
        (xs.filterMap SheetDataItem.ano)
    ∧ (loadSheetsDataResolve t2 (FetchResult.ok ys) s2).availableYears
        = (loadSheetsDataResolve t (FetchResult.ok xs) s).availableYears
    ∧ (loadSheetsDataResolve t2 (FetchResult.ok ys) s2).selectedYears
        = (loadSheetsDataResolve t (FetchResult.ok xs) s).selectedYears := by
  have hlen : xs.length > 0 := List.length_pos.mpr hne
  have hlen2 : ys.length > 0 := hperm.length_eq ▸ hlen
  have havx : (loadSheetsDataResolve t (FetchResult.ok xs) s).availableYears
      = availableYearsOf xs := by
    simp only [loadSheetsDataResolve, if_pos hlen]
  have hsex : (loadSheetsDataResolve t (FetchResult.ok xs) s).selectedYears
      = availableYearsOf xs := by
    simp only [loadSheetsDataResolve, if_pos hlen]
  have havy : (loadSheetsDataResolve t2 (FetchResult.ok ys) s2).availableYears
      = availableYearsOf ys := by
    simp only [loadSheetsDataResolve, if_pos hlen2]
  have hsey : (loadSheetsDataResolve t2 (FetchResult.ok ys) s2).selectedYears
      = availableYearsOf ys := by
    simp only [loadSheetsDataResolve, if_pos hlen2]
  have hperm_years : availableYearsOf ys = availableYearsOf xs := by
    unfold availableYearsOf
    exact sortYears_eq_of_perm (yearsOf_perm hperm.symm)
  refine ⟨havx, ?_, ?_, ?_, ?_, ?_⟩
  · rw [havx]; exact List.sorted_insertionSort _ _
  · rw [havx, hsex]
  · rw [havx]
    have h1 : (availableYearsOf xs).Perm (yearsOf xs) := List.perm_insertionSort _ _
    rw [yearsOf_eq_filterMap_of_truthy hy] at h1
    exact h1
  · rw [havx, havy, hperm_years]
  · rw [hsex, hsey, hperm_years]

/-- Witness for C7 at the spec's scenario: records for years 2022–2024
arriving out of order, with a different previously selected year list, yield
`[2022, 2023, 2024]` as both the available and the selected years. -/
theorem load_success_resets_years_witness :
    (loadSheetsDataResolve "2024"
        (FetchResult.ok [⟨some 2023, ["ano", "Receita"]⟩, ⟨some 2022, ["ano", "Receita"]⟩,
          ⟨some 2024, ["ano", "Receita"]⟩])
        ⟨false, true, none, "", ["2023", "2024"], "2024", [1999], [1999], false⟩).availableYears
      = [2022, 2023, 2024]
    ∧ (loadSheetsDataResolve "2024"
        (FetchResult.ok [⟨some 2023, ["ano", "Receita"]⟩, ⟨some 2022, ["ano", "Receita"]⟩,
          ⟨some 2024, ["ano", "Receita"]⟩])
        ⟨false, true, none, "", ["2023", "2024"], "2024", [1999], [1999], false⟩).selectedYears
      = [2022, 2023, 2024] := by
  have h := load_success_resets_years
    ⟨false, true, none, "", ["2023", "2024"], "2024", [1999], [1999], false⟩
    ⟨false, true, none, "", ["2023", "2024"], "2024", [1999], [1999], false⟩
    "2024" "2024"
    [⟨some 2023, ["ano", "Receita"]⟩, ⟨some 2022, ["ano", "Receita"]⟩,
      ⟨some 2024, ["ano", "Receita"]⟩]
    [⟨some 2023, ["ano", "Receita"]⟩, ⟨some 2022, ["ano", "Receita"]⟩,
      ⟨some 2024, ["ano", "Receita"]⟩]
    (by decide) (by decide) (List.Perm.refl _)
  constructor
  · rw [h.1]; decide
  · rw [h.2.2.1, h.1]; decide

/-! ### Currency rendering

The cell value rendering of the dashboard table:
`(value < 0 ? '-R$ ' : 'R$ ') + Math.abs(value).toLocaleString('pt-BR',
{ minimumFractionDigits: 2, maximumFractionDigits: 2 })`.
`toLocaleString` for pt-BR groups the integer part with `.` every three
digits from the right, uses `,` as the decimal separator, prints exactly two
fraction digits, and rounds half away from zero; the numeric value is
modelled as a rational. -/

/-- The character of one decimal digit. -/
def digitChar (d : Nat) : Char := Char.ofNat (48 + d)

/-- Decimal digits of `n`, least significant first; the first argument is
fuel (any value above `n` suffices). -/
def digitsRev : Nat → Nat → List Char
  | 0, _ => []
  | fuel + 1, n => if n < 10 then [digitChar n] else digitChar (n % 10) :: digitsRev fuel (n / 10)

/-- Inserts the pt-BR thousands separator `.` after every third digit of a
least-significant-first digit list; the counter holds the digits emitted
since the last separator. -/
def groupRev : List Char → Nat → List Char
  | [], _ => []
  | d :: ds, k => if k = 3 then '.' :: d :: groupRev ds 1 else d :: groupRev ds (k + 1)

/-- The grouped pt-BR rendering of a natural number, as characters. -/
def fmtNatL (n : Nat) : List Char :=
  (groupRev (digitsRev (n + 1) n) 0).reverse

/-- The pt-BR magnitude string for a non-negative amount given in centavos:
grouped integer part, decimal comma, exactly two fraction digits. -/
def fmtCentavosL (cents : Nat) : List Char :=
  fmtNatL (cents / 100) ++ [','] ++ [digitChar (cents / 10 % 10), digitChar (cents % 10)]

/-- String form of `fmtCentavosL`. -/
def fmtCentavos (cents : Nat) : String := ⟨fmtCentavosL cents⟩

/-- Value of `Math.abs(value)` scaled to centavos and rounded half away from zero
(the `toLocaleString` rounding applied to a non-negative value). -/
def roundHalfUpCents (q : ℚ) : Nat := (⌊q * 100 + 1 / 2⌋).toNat

/-- The rendered cell text for a numeric value: sign-dependent currency
marker followed by the pt-BR magnitude of the absolute value. -/
def renderCellNumber (v : ℚ) : String :=
  (if v < 0 then "-R$ " else "R$ ") ++ fmtCentavos (roundHalfUpCents |v|)

/-- The first character of a rendered string. -/
def firstChar (s : String) : Option Char := s.data.head?

lemma firstChar_mk_append (c : Char) (rest : List Char) (t : String) :
    firstChar (String.mk (c :: rest) ++ t) = some c := by
  cases t with
  | mk l => rfl

lemma digit_ne_comma : ∀ x : Nat, x < 10 → (digitChar x == ',') = false := by decide

/-- C8: the rendered currency string is the currency marker `R$ ` prefixed
with a minus exactly when the value is negative, followed by the absolute
value in centavos with the pt-BR separators; the fractional part always has
exactly two digits, and `-1234.5` renders as `-R$ 1.234,50`. -/
theorem currency_format_spec :
    (∀ v : ℚ, renderCellNumber v
        = (if v < 0 then "-" else "") ++ "R$ " ++ fmtCentavos (roundHalfUpCents |v|))
    ∧ (∀ v : ℚ, firstChar (renderCellNumber v) = some (if v < 0 then '-' else 'R'))
    ∧ (∀ cents : Nat,
        ((fmtCentavosL cents).reverse.takeWhile (fun c => !(c == ','))).length = 2)
    ∧ renderCellNumber (-1234.5 : ℚ) = "-R$ 1.234,50" := by
  refine ⟨?_, ?_, ?_, ?_⟩
  · intro v
    unfold renderCellNumber
    split <;> rfl
  · intro v
    unfold renderCellNumber
    split
    · exact firstChar_mk_append '-' ['R', '$', ' '] _
    · exact firstChar_mk_append 'R' ['$', ' '] _
  · intro cents
    have h1 : (digitChar (cents / 10 % 10) == ',') = false :=
      digit_ne_comma _ (Nat.mod_lt _ (by norm_num))
    have h2 : (digitChar (cents % 10) == ',') = false :=
      digit_ne_comma _ (Nat.mod_lt _ (by norm_num))
    simp [fmtCentavosL, List.takeWhile_cons, h1, h2]
  · have hneg : (-1234.5 : ℚ) < 0 := by norm_num
    have habs : |(-1234.5 : ℚ)| = 1234.5 := by norm_num
    have hfloor : (⌊(1234.5 : ℚ) * 100 + 1 / 2⌋ : ℤ) = 123450 := by
      rw [Int.floor_eq_iff]
      constructor <;> norm_num
    have hcents : roundHalfUpCents |(-1234.5 : ℚ)| = 123450 := by
      unfold roundHalfUpCents
      rw [habs, hfloor]
      rfl
    unfold renderCellNumber
    rw [if_pos hneg, hcents]
    rfl

/-! ### `fetchSheetsData` response shaping

`frontend/lib/api.ts` post-processes `response.data`: when it is a truthy
value of `typeof 'object'` owning a `message` property (the backend's
structured "no data" answer), it is replaced by an empty array.  The JS
values a response can take are modelled as an array, a plain object carrying
its key list, or `null`; all three have `typeof x === 'object'`, and only
`null` is falsy among them. -/

/-- The relevant shapes of `response.data`. -/
inductive ApiResponseData where
  | jsArray (items : List SheetDataItem)
  | jsObject (keys : List String)
  | jsNull
deriving DecidableEq

/-- JavaScript truthiness: `null` is falsy, arrays and objects are truthy. -/
def jsTruthy : ApiResponseData → Bool
  | ApiResponseData.jsNull => false
  | _ => true

/-- The test `typeof x === 'object'` holds for arrays, plain objects and `null`. -/
def jsTypeofObject : ApiResponseData → Bool := fun _ => true

/-- The test `'message' in x`: property lookup; arrays own no `message` property. -/
def hasMessageKey : ApiResponseData → Bool
  | ApiResponseData.jsObject ks => ks.contains "message"
  | _ => false

/-- The result of `fetchSheetsData` as a function of the resolved
`response.data`: the structured message object collapses to `[]`, everything
else is returned unchanged. -/
def fetchSheetsDataShape (d : ApiResponseData) : ApiResponseData :=
  if jsTruthy d && jsTypeofObject d && hasMessageKey d then ApiResponseData.jsArray []
  else d

/-- C9: a structured "no data" message object is converted to the empty
array, so it is indistinguishable from an empty successful result; plain
array responses pass through unchanged (never an error or a non-array
value). -/
theorem fetchSheetsData_message_object_empty (ks : List String)
    (xs : List SheetDataItem) (h : ks.contains "message" = true) :
    fetchSheetsDataShape (ApiResponseData.jsObject ks) = ApiResponseData.jsArray []
    ∧ fetchSheetsDataShape (ApiResponseData.jsArray []) = ApiResponseData.jsArray []
    ∧ fetchSheetsDataShape (ApiResponseData.jsArray xs) = ApiResponseData.jsArray xs := by
  refine ⟨?_, rfl, rfl⟩
  have hm : "message" ∈ ks := by simpa using h
  simp [fetchSheetsDataShape, jsTruthy, jsTypeofObject, hasMessageKey, hm]

/-- Witness for C9 at the concrete backend answer `{ message: ... }`. -/
theorem fetchSheetsData_message_object_empty_witness :
    fetchSheetsDataShape (ApiResponseData.jsObject ["message"]) = ApiResponseData.jsArray []
    ∧ fetchSheetsDataShape (ApiResponseData.jsArray []) = ApiResponseData.jsArray [] := by
  have h := fetchSheetsData_message_object_empty ["message"] [] (by decide)
  exact ⟨h.1, h.2.1⟩

end DemonstValores
